import Mathlib

/-
  Verification of the drogue-device BLE-mesh node core.

  Shallow embedding of:
  - the node protocol state machine and `do_loop` dispatcher
    (src/device/src/drivers/ble/mesh/driver/node/mod.rs),
  - the unprovisioned beacon construction and the unprovisioned loop,
  - `Node::publish` resolution of application publish messages,
  - the startup configuration-load recovery in `Node::run`,
  - the split-init outbound channels (`OutboundChannel` and
    `OutboundPublishChannel`, which are textually identical up to the
    message type, modelled once generically),
  - the single-slot wake primitive (src/kernel/src/system/signal.rs).

  External collaborators (Pipeline, ConfigurationManager lookups,
  Transmitter, Receiver) are abstracted as parameters: the pipeline result
  of an iteration is an input event, configuration lookups are function
  fields, transmitted frames are collected as lists of byte lists.
  Bytes are modelled as Nat; wakers as Nat identifiers.
-/

/-- `State` from node/mod.rs: the protocol state of the node. -/
inductive State where
  | Unprovisioned
  | Provisioning
  | Provisioned
  deriving DecidableEq, Repr

/-- The guard in `do_loop` (node/mod.rs lines 397-402): `connect_elements`
is invoked exactly when the newly yielded state is `Provisioned` and the
current state is not `Provisioned`. -/
def connect_fires (current next : State) : Bool :=
  match next with
  | State.Provisioned =>
    match current with
    | State.Provisioned => false
    | _ => true
  | _ => false

/-- One iteration of `do_loop` (node/mod.rs lines 389-409) in the success
case: `result` is the `Option<State>` yielded by the per-state loop body
(an erroring iteration aborts via `?` before any transition and is not
modelled by a step). Returns the state after the iteration and whether
`connect_elements` was invoked. The source writes the state cell only when
`next_state != current_state`; writing an equal value is the identity, which
the `if` mirrors. -/
def do_loop_step (current : State) (result : Option State) : State × Bool :=
  match result with
  | Option.none => (current, false)
  | Option.some next =>
    (if next = current then current else next, connect_fires current next)

/-- A run of the node loop over a trace of per-iteration pipeline results:
final state and the total number of `connect_elements` invocations. -/
def run_trace (s : State) : List (Option State) → State × Nat
  | [] => (s, 0)
  | e :: es =>
    let step := do_loop_step s e
    let rest := run_trace step.1 es
    (rest.1, (if step.2 then 1 else 0) + rest.2)

/-- Specification-side count: the number of iterations whose pre-state is
not `Provisioned` and whose event yields `Option.some State.Provisioned`
(state evolution follows `do_loop_step`). Used to characterise when
`connect_elements` fires. -/
def provisioned_entries (s : State) : List (Option State) → Nat
  | [] => 0
  | e :: es =>
    (match e with
     | Option.some State.Provisioned => if s = State.Provisioned then 0 else 1
     | _ => 0)
    + provisioned_entries (do_loop_step s e).1 es

-- Unprovisioned beacon ------------------------------------------------------

/-- `heapless::Vec::extend_from_slice` on a capacity-`cap` vector: appends
the whole slice if it fits, otherwise leaves the vector unchanged (the
source discards the `Err` with `.ok()`). -/
def extend_from_slice (cap : Nat) (v s : List Nat) : List Nat :=
  if v.length + s.length ≤ cap then v ++ s else v

/-- `transmit_unprovisioned_beacon` (node/mod.rs lines 303-310): the byte
string handed to `Transmitter::transmit_bytes`. `mesh_beacon` is the
`MESH_BEACON` advertising-type constant (defined outside the embedded
sources, so kept abstract); `uuid` is the 16-byte device UUID from the
vault. The buffer capacity is 31. -/
def transmit_unprovisioned_beacon (mesh_beacon : Nat) (uuid : List Nat) : List Nat :=
  let adv_data : List Nat := []
  let adv_data := extend_from_slice 31 adv_data [20, mesh_beacon, 0x00]
  let adv_data := extend_from_slice 31 adv_data uuid
  extend_from_slice 31 adv_data [0xa0, 0x40]

/-- The event that wins the race in one iteration of `loop_unprovisioned`:
an inbound receive success (with the resulting state option of the pipeline),
an inbound receive error, or the 3-second ticker. -/
inductive UnprovEvent where
  | inbound (pipeline_result : Option State)
  | receive_err
  | tick

/-- One iteration of `loop_unprovisioned` (node/mod.rs lines 272-301),
assuming transmissions succeed: the list of frames handed to the
transmitter during the iteration, and the `Option<State>` the iteration
returns. The beacon is transmitted unconditionally at the top of the
iteration, before the race; a ticker win transmits it a second time. A
receive error falls into the catch-all arm and yields no state. -/
def loop_unprovisioned (mesh_beacon : Nat) (uuid : List Nat) (ev : UnprovEvent) :
    List (List Nat) × Option State :=
  let beacon := transmit_unprovisioned_beacon mesh_beacon uuid
  match ev with
  | UnprovEvent.inbound r => ([beacon], r)
  | UnprovEvent.receive_err => ([beacon], Option.none)
  | UnprovEvent.tick => ([beacon, beacon], Option.none)

-- Publish resolution --------------------------------------------------------

abbrev UnicastAddress := Nat
abbrev ModelIdentifier := Nat
abbrev AccessPayload := List Nat
abbrev Address := Nat
abbrev NetworkKeyHandle := Nat

/-- `OutboundPublishMessage` (node/mod.rs lines 86-90). -/
structure OutboundPublishMessage where
  element_address : UnicastAddress
  model_identifier : ModelIdentifier
  payload : AccessPayload
  deriving DecidableEq, Repr

/-- `AccessMessage` as constructed by `publish` (node/mod.rs lines 250-260). -/
structure AccessMessage where
  ttl : Nat
  network_key : NetworkKeyHandle
  ivi : Nat
  nid : Nat
  akf : Bool
  aid : Nat
  src : UnicastAddress
  dst : Address
  payload : AccessPayload
  deriving DecidableEq, Repr

/-- App-key view returned by `find_app_key_by_index`; only `aid` is read
by `publish`. -/
structure AppKeyDetails where
  aid : Nat
  deriving DecidableEq, Repr

/-- A publication entry as read by `publish`. -/
structure Publication where
  app_key_index : Nat
  publish_ttl : Nat
  publish_address : Address
  deriving DecidableEq, Repr

/-- The (inner) network details returned by `find_publication`: `publish`
reads its `nid`, derives a `NetworkKeyHandle` from it, and looks up app
keys on it. The lookup lives outside the embedded sources and is kept
abstract as a function field. -/
structure NetworkDetails where
  nid : Nat
  key_handle : NetworkKeyHandle
  find_app_key_by_index : Nat → Option AppKeyDetails

/-- The configured network view: `find_publication` resolves an
(element address, model identifier) pair to the owning network details and
the publication entry; kept abstract as a function field. -/
structure Network where
  find_publication :
    UnicastAddress → ModelIdentifier → Option (NetworkDetails × Publication)

/-- The configuration view returned by
`ConfigurationManager::configuration()`. -/
structure Configuration where
  network : Option Network

/-- `Node::publish` (node/mod.rs lines 242-270), as the `AccessMessage`
handed to `Pipeline::process_outbound`, or `Option.none` when resolution
fails at any of the three stages (no network, no matching publication, no
app key for the app-key index of the publication) and the message is
silently dropped. -/
def publish (configuration : Configuration) (p : OutboundPublishMessage) :
    Option AccessMessage :=
  match configuration.network with
  | Option.none => Option.none
  | Option.some network =>
    match network.find_publication p.element_address p.model_identifier with
    | Option.none => Option.none
    | Option.some (network, publication) =>
      match network.find_app_key_by_index publication.app_key_index with
      | Option.none => Option.none
      | Option.some app_key_details =>
        Option.some
          { ttl := publication.publish_ttl
            network_key := network.key_handle
            ivi := 0
            nid := network.nid
            akf := true
            aid := app_key_details.aid
            src := p.element_address
            dst := publication.publish_address
            payload := p.payload }

/-- `Node::publish` including its interaction with the pipeline:
`process_outbound` is the external pipeline call (its error propagates via
`?`). Returns the `Result` of `publish` and the message handed to the
pipeline, if any. On failed resolution the source returns `Ok(())` without
calling `process_outbound`. -/
def publish_run {ε : Type} (configuration : Configuration)
    (p : OutboundPublishMessage)
    (process_outbound : AccessMessage → Except ε Unit) :
    Except ε Unit × Option AccessMessage :=
  match publish configuration p with
  | Option.none => (Except.ok (), Option.none)
  | Option.some m =>
    match process_outbound m with
    | Except.ok _ => (Except.ok (), Option.some m)
    | Except.error e => (Except.error e, Option.some m)

-- Startup recovery ----------------------------------------------------------

/-- The startup configuration-load sequence of `Node::run` (node/mod.rs
lines 419-427): `first` is the outcome of the initial
`configuration_manager.initialize`, `second` the outcome of the retry that
follows a forced `reset()`. Returns the number of `reset()` calls
performed and the overall result (a second failure propagates via `?`).
The `second` attempt is only ever performed when `first` fails. -/
def run_startup {ε : Type} (first second : Except ε Unit) :
    Nat × Except ε Unit :=
  match first with
  | Except.ok _ => (0, Except.ok ())
  | Except.error _ =>
    match second with
    | Except.ok _ => (1, Except.ok ())
    | Except.error e => (1, Except.error e)

-- Outbound channels ---------------------------------------------------------

/-- State of an `OutboundChannel` / `OutboundPublishChannel` (node/mod.rs
lines 43-135): `Option.none` before `ChannelState` setup has installed the
sender/receiver halves, `Option.some queue` afterwards. The initialized
queue is the embassy mpsc channel of capacity 3, modelled per its bounded
FIFO contract. -/
abbrev ChannelModel (α : Type) := Option (List α)

/-- Outcome of a `send` call: completed (with the channel state after the
call), or suspended awaiting a free slot. -/
inductive SendOutcome (α : Type) where
  | completed (channel : ChannelModel α)
  | suspended
  deriving DecidableEq, Repr

/-- Outcome of a `next` call: returned (with the received message option
and the channel state after the call), or suspended awaiting a message. -/
inductive NextOutcome (α : Type) where
  | returned (msg : Option α) (channel : ChannelModel α)
  | suspended
  deriving DecidableEq, Repr

/-- `OutboundChannel::send` (node/mod.rs lines 65-71; identically
`OutboundPublishChannel::send`, lines 114-120): when no sender half is
installed the `if let` falls through and the call completes with the
message discarded; otherwise the bounded channel enqueues, suspending when
all 3 slots are full. -/
def OutboundChannel.send {α : Type} (st : ChannelModel α) (m : α) :
    SendOutcome α :=
  match st with
  | Option.none => SendOutcome.completed Option.none
  | Option.some q =>
    if q.length < 3 then SendOutcome.completed (Option.some (q ++ [m]))
    else SendOutcome.suspended

/-- `OutboundChannel::next` (node/mod.rs lines 73-81; identically
`OutboundPublishChannel::next`, lines 122-130): when no receiver half is
installed it returns `Option.none` immediately; otherwise `recv` yields
the oldest message, suspending while the channel is empty. -/
def OutboundChannel.next {α : Type} (st : ChannelModel α) : NextOutcome α :=
  match st with
  | Option.none => NextOutcome.returned Option.none Option.none
  | Option.some [] => NextOutcome.suspended
  | Option.some (m :: rest) =>
    NextOutcome.returned (Option.some m) (Option.some rest)

-- WakeSlot / Signal ---------------------------------------------------------

/-- `State` from kernel signal.rs: the tri-state of the single-slot wake
primitive. Wakers are identified by `Nat`. -/
inductive SignalState where
  | None
  | Waiting (w : Nat)
  | Signaled
  deriving DecidableEq, Repr

/-- `Poll` outcome of `poll_wait`. -/
inductive Poll where
  | Ready
  | Pending
  deriving DecidableEq, Repr

/-- `Waker::will_wake`, modelled as identity of waker ids. -/
def will_wake (w cx : Nat) : Bool := w == cx

/-- `Signal::signal` (signal.rs lines 77-85): replaces the state with
`Signaled`; if the old state held a registered waker, that waker is woken
(returned as `Option.some`). -/
def Signal.signal (s : SignalState) : SignalState × Option Nat :=
  match s with
  | SignalState.Waiting w => (SignalState.Signaled, Option.some w)
  | _ => (SignalState.Signaled, Option.none)

/-- `Signal::poll_wait` (signal.rs lines 94-110) polled with waker `cx`:
on `None` registers `cx` and returns pending; on `Waiting` returns pending
leaving the registered waker untouched (both the `will_wake` arm and the
catch-all arm); on `Signaled` replaces the state with `None` and, the
replaced value being `Signaled`, returns ready. -/
def Signal.poll_wait (s : SignalState) (cx : Nat) : SignalState × Poll :=
  match s with
  | SignalState.None => (SignalState.Waiting cx, Poll.Pending)
  | SignalState.Waiting w =>
    if will_wake w cx then (SignalState.Waiting w, Poll.Pending)
    else (SignalState.Waiting w, Poll.Pending)
  | SignalState.Signaled => (SignalState.None, Poll.Ready)

/-- `n` consecutive `signal()` calls: final state and the list of waker
ids woken along the way. -/
def signal_iter : Nat → SignalState → SignalState × List Nat
  | 0, s => (s, [])
  | Nat.succ n, s =>
    let r := Signal.signal s
    let rest := signal_iter n r.1
    (rest.1, (match r.2 with | Option.some w => [w] | Option.none => []) ++ rest.2)

-- Concrete sample data ------------------------------------------------------

/-- The 16-byte device UUID 00112233445566778899AABBCCDDEEFF used as a
concrete sample. -/
def sample_uuid : List Nat :=
  [0x00, 0x11, 0x22, 0x33, 0x44, 0x55, 0x66, 0x77,
   0x88, 0x99, 0xaa, 0xbb, 0xcc, 0xdd, 0xee, 0xff]

/-- Sample publication entry. -/
def sample_publication : Publication :=
  { app_key_index := 2, publish_ttl := 5, publish_address := 0x1234 }

/-- Sample app-key view. -/
def sample_app_key : AppKeyDetails := { aid := 9 }

/-- Sample network details holding the sample app key at index 2. -/
def sample_network_details : NetworkDetails :=
  { nid := 7
    key_handle := 3
    find_app_key_by_index := fun i =>
      if i == 2 then Option.some sample_app_key else Option.none }

/-- Sample network resolving (0x0a, 0x1000) to the sample publication. -/
def sample_network : Network :=
  { find_publication := fun a m =>
      if a == 0x0a && m == 0x1000 then
        Option.some (sample_network_details, sample_publication)
      else Option.none }

/-- Sample configuration with the sample network. -/
def sample_configuration : Configuration :=
  { network := Option.some sample_network }

/-- Configuration with no network provisioned. -/
def empty_configuration : Configuration := { network := Option.none }

/-- Sample outbound publish message matching the sample publication. -/
def sample_publish_message : OutboundPublishMessage :=
  { element_address := 0x0a, model_identifier := 0x1000, payload := [1, 2, 3] }

-- Helper lemmas -------------------------------------------------------------

/-- The message handed to the pipeline by `publish_run` is exactly the
resolution result of `publish`. -/
theorem publish_run_snd {ε : Type} (cfg : Configuration)
    (p : OutboundPublishMessage)
    (process_outbound : AccessMessage → Except ε Unit) :
    (publish_run cfg p process_outbound).2 = publish cfg p := by
  cases hp : publish cfg p with
  | none => simp [publish_run, hp]
  | some m =>
    cases hpo : process_outbound m with
    | ok a => simp [publish_run, hp, hpo]
    | error e => simp [publish_run, hp, hpo]

/-- Iterated `signal()` from the `Signaled` state stays `Signaled` and
wakes nobody. -/
theorem signal_iter_signaled (n : Nat) :
    signal_iter n SignalState.Signaled = (SignalState.Signaled, []) := by
  induction n with
  | zero => rfl
  | succ n ih => simp [signal_iter, Signal.signal, ih]

-- Claim theorems ------------------------------------------------------------

/-- Claim C1, counterexample: the claim as stated is false on the code.
Starting Unprovisioned, a trace whose events yield Provisioned, then
Unprovisioned, then Provisioned again invokes `connect_elements` twice: a
later re-entry into Provisioned after leaving it does re-trigger the
element connect. -/
theorem C1_connect_reentry_counterexample :
    (run_trace State.Unprovisioned
      [Option.some State.Provisioned, Option.some State.Unprovisioned,
       Option.some State.Provisioned]).2 = 2 ∧
    ¬ (run_trace State.Unprovisioned
      [Option.some State.Provisioned, Option.some State.Unprovisioned,
       Option.some State.Provisioned]).2 ≤ 1 := by
  decide

/-- Claim C1, amended: in every run of the node loop, `connect_elements`
is invoked exactly at the iterations whose pre-state is not Provisioned
and whose event yields Provisioned. In particular a second event yielding
Provisioned while the node is already Provisioned never re-invokes it;
but a re-entry into Provisioned after leaving that state invokes it
again. -/
theorem C1_connect_exactly_on_entry (s : State) (tr : List (Option State)) :
    (run_trace s tr).2 = provisioned_entries s tr := by
  induction tr generalizing s with
  | nil => rfl
  | cons e es ih =>
    cases e with
    | none =>
      simpa [run_trace, do_loop_step, provisioned_entries] using ih s
    | some next =>
      cases next <;> cases s <;>
        simp [run_trace, do_loop_step, provisioned_entries, connect_fires, ih]

/-- Claim C2, counterexample: the byte string handed to the transmitter
for the sample UUID has length 21, not 31 as the claim states (31 is only
the capacity of the advertisement buffer). -/
theorem C2_beacon_length_counterexample :
    (transmit_unprovisioned_beacon 0x2b sample_uuid).length = 21 ∧
    ¬ (transmit_unprovisioned_beacon 0x2b sample_uuid).length = 31 := by
  decide

/-- Claim C2, amended: for every 16-byte device UUID,
`transmit_unprovisioned_beacon` hands the transmitter the 21-byte sequence
[20, BEACON_OPCODE, 0x00, <16-byte UUID>, 0xA0, 0x40], in that order. -/
theorem C2_beacon_layout (mesh_beacon : Nat) (uuid : List Nat)
    (h : uuid.length = 16) :
    transmit_unprovisioned_beacon mesh_beacon uuid =
      [20, mesh_beacon, 0x00] ++ uuid ++ [0xa0, 0x40] ∧
    (transmit_unprovisioned_beacon mesh_beacon uuid).length = 21 := by
  constructor
  · simp [transmit_unprovisioned_beacon, extend_from_slice, h]
  · simp [transmit_unprovisioned_beacon, extend_from_slice, h]

/-- Witness for C2_beacon_layout at the sample UUID and opcode 0x2b. -/
theorem C2_beacon_layout_witness :
    sample_uuid.length = 16 ∧
    (transmit_unprovisioned_beacon 0x2b sample_uuid =
      [20, 0x2b, 0x00] ++ sample_uuid ++ [0xa0, 0x40] ∧
     (transmit_unprovisioned_beacon 0x2b sample_uuid).length = 21) :=
  ⟨by decide, C2_beacon_layout 0x2b sample_uuid (by decide)⟩

/-- Claim C3: signals coalesce. For every n ≥ 1, n `signal()` calls on an
idle (State::None) slot wake nobody and leave the slot Signaled; a single
`poll_wait` then completes ready immediately and returns the slot to
State::None; a second `poll_wait` is pending again. -/
theorem C3_wake_slot_coalesce (n : Nat) (h : 1 ≤ n) (cx cx2 : Nat) :
    signal_iter n SignalState.None = (SignalState.Signaled, []) ∧
    Signal.poll_wait (signal_iter n SignalState.None).1 cx =
      (SignalState.None, Poll.Ready) ∧
    (Signal.poll_wait
      (Signal.poll_wait (signal_iter n SignalState.None).1 cx).1 cx2).2 =
      Poll.Pending := by
  match n, h with
  | Nat.succ m, _ =>
    have hiter : signal_iter (Nat.succ m) SignalState.None =
        (SignalState.Signaled, []) := by
      simp [signal_iter, Signal.signal, signal_iter_signaled]
    refine ⟨hiter, ?_, ?_⟩
    · rw [hiter]
      rfl
    · rw [hiter]
      rfl

/-- Witness for C3_wake_slot_coalesce at n = 3 with wakers 0 and 1. -/
theorem C3_wake_slot_coalesce_witness :
    1 ≤ 3 ∧
    (signal_iter 3 SignalState.None = (SignalState.Signaled, []) ∧
     Signal.poll_wait (signal_iter 3 SignalState.None).1 0 =
       (SignalState.None, Poll.Ready) ∧
     (Signal.poll_wait
       (Signal.poll_wait (signal_iter 3 SignalState.None).1 0).1 1).2 =
       Poll.Pending) :=
  ⟨by decide, C3_wake_slot_coalesce 3 (by decide) 0 1⟩

/-- Claim C4: publish resolution round-trip. Whenever the configuration
holds a network, `find_publication` matches the (element address, model
identifier) of the publish message, and the app-key index of the matched
publication resolves to an app key, `publish` constructs an AccessMessage
whose ttl is the publish_ttl of the publication, whose dst is its
publish_address and whose aid is the aid of the resolved app key, and
`publish_run` hands exactly that message to `process_outbound`. -/
theorem C4_publish_round_trip {ε : Type} (cfg : Configuration)
    (p : OutboundPublishMessage) (nw : Network) (nd : NetworkDetails)
    (pb : Publication) (akd : AppKeyDetails)
    (process_outbound : AccessMessage → Except ε Unit)
    (h1 : cfg.network = Option.some nw)
    (h2 : nw.find_publication p.element_address p.model_identifier =
      Option.some (nd, pb))
    (h3 : nd.find_app_key_by_index pb.app_key_index = Option.some akd) :
    ∃ m, publish cfg p = Option.some m ∧
      m.ttl = pb.publish_ttl ∧
      m.dst = pb.publish_address ∧
      m.aid = akd.aid ∧
      (publish_run cfg p process_outbound).2 = Option.some m := by
  have hp : publish cfg p = Option.some
      { ttl := pb.publish_ttl
        network_key := nd.key_handle
        ivi := 0
        nid := nd.nid
        akf := true
        aid := akd.aid
        src := p.element_address
        dst := pb.publish_address
        payload := p.payload } := by
    simp [publish, h1, h2, h3]
  refine ⟨_, hp, rfl, rfl, rfl, ?_⟩
  rw [publish_run_snd, hp]

/-- Witness for C4_publish_round_trip at the sample configuration. -/
theorem C4_publish_round_trip_witness :
    sample_configuration.network = Option.some sample_network ∧
    sample_network.find_publication sample_publish_message.element_address
      sample_publish_message.model_identifier =
      Option.some (sample_network_details, sample_publication) ∧
    sample_network_details.find_app_key_by_index
      sample_publication.app_key_index = Option.some sample_app_key ∧
    ∃ m, publish sample_configuration sample_publish_message =
        Option.some m ∧
      m.ttl = sample_publication.publish_ttl ∧
      m.dst = sample_publication.publish_address ∧
      m.aid = sample_app_key.aid ∧
      (publish_run sample_configuration sample_publish_message
        (fun _ => (Except.ok () : Except Nat Unit))).2 = Option.some m :=
  ⟨rfl, rfl, rfl,
    C4_publish_round_trip sample_configuration sample_publish_message
      sample_network sample_network_details sample_publication sample_app_key
      (fun _ => Except.ok ()) rfl rfl rfl⟩

/-- Claim C5: silent drop on failed publish resolution. Whenever the
configuration has no network, or no matching publication for the
(element address, model identifier) of the message, or no app key for the
app-key index of the matched publication, the publish call completes with
Ok(()) and hands nothing to `process_outbound`. -/
theorem C5_publish_silent_drop {ε : Type} (cfg : Configuration)
    (p : OutboundPublishMessage)
    (process_outbound : AccessMessage → Except ε Unit)
    (h : cfg.network = Option.none ∨
      (∃ nw, cfg.network = Option.some nw ∧
        nw.find_publication p.element_address p.model_identifier =
          Option.none) ∨
      (∃ nw nd pb, cfg.network = Option.some nw ∧
        nw.find_publication p.element_address p.model_identifier =
          Option.some (nd, pb) ∧
        nd.find_app_key_by_index pb.app_key_index = Option.none)) :
    publish_run cfg p process_outbound = (Except.ok (), Option.none) := by
  have hp : publish cfg p = Option.none := by
    rcases h with h1 | ⟨nw, h1, h2⟩ | ⟨nw, nd, pb, h1, h2, h3⟩ <;>
      simp [publish, h1]
    · simp [h2]
    · simp [h2, h3]
  simp [publish_run, hp]

/-- Witness for C5_publish_silent_drop: a configuration with no network
and a pipeline stub that would fail if it were ever called. -/
theorem C5_publish_silent_drop_witness :
    (empty_configuration.network = Option.none ∨
      (∃ nw, empty_configuration.network = Option.some nw ∧
        nw.find_publication sample_publish_message.element_address
          sample_publish_message.model_identifier = Option.none) ∨
      (∃ nw nd pb, empty_configuration.network = Option.some nw ∧
        nw.find_publication sample_publish_message.element_address
          sample_publish_message.model_identifier = Option.some (nd, pb) ∧
        nd.find_app_key_by_index pb.app_key_index = Option.none)) ∧
    publish_run empty_configuration sample_publish_message
      (fun _ => (Except.error 7 : Except Nat Unit)) =
      (Except.ok (), Option.none) :=
  ⟨Or.inl rfl,
    C5_publish_silent_drop empty_configuration sample_publish_message
      (fun _ => Except.error 7) (Or.inl rfl)⟩

/-- Claim C6, counterexample: a ticker-winning iteration of
`loop_unprovisioned` transmits two beacons, not one: one unconditionally
at the top of the iteration before the race, and one more when the ticker
fires. -/
theorem C6_unprovisioned_tick_counterexample :
    (loop_unprovisioned 0x2b sample_uuid UnprovEvent.tick).1.length = 2 ∧
    ¬ (loop_unprovisioned 0x2b sample_uuid UnprovEvent.tick).1.length = 1 := by
  decide

/-- Claim C6, amended: a single iteration of the unprovisioned loop in
which the 3-second ticker wins the race transmits exactly two
unprovisioned beacons (the unconditional one at iteration entry and the
re-beacon on the tick), both of the fixed layout, and yields no state
transition. -/
theorem C6_unprovisioned_tick_two_beacons (mesh_beacon : Nat)
    (uuid : List Nat) :
    (loop_unprovisioned mesh_beacon uuid UnprovEvent.tick).1 =
      [transmit_unprovisioned_beacon mesh_beacon uuid,
       transmit_unprovisioned_beacon mesh_beacon uuid] ∧
    (loop_unprovisioned mesh_beacon uuid UnprovEvent.tick).2 =
      Option.none :=
  ⟨rfl, rfl⟩

/-- Claim C7: startup configuration-load recovery happens exactly once.
If the first `initialize` attempt succeeds, no reset is performed; if it
fails, exactly one reset is performed and the retry result decides the
outcome; a second failure surfaces as that error. -/
theorem C7_run_startup_recovery {ε : Type} (e e2 : ε) (s : Except ε Unit) :
    run_startup (Except.ok ()) s = (0, Except.ok ()) ∧
    run_startup (Except.error e) (Except.ok ()) = (1, Except.ok ()) ∧
    run_startup (Except.error e) (Except.error e2) = (1, Except.error e2) :=
  ⟨rfl, rfl, rfl⟩

/-- Claim C8: second-waiter registration is a silent no-op. Polling a slot
already Waiting on waker w1 with a distinct waker w2 returns Pending and
leaves Waiting(w1) untouched, and a subsequent `signal()` wakes exactly
w1. -/
theorem C8_wake_slot_second_waiter (w1 w2 : Nat) (h : w1 ≠ w2) :
    Signal.poll_wait (SignalState.Waiting w1) w2 =
      (SignalState.Waiting w1, Poll.Pending) ∧
    Signal.signal (SignalState.Waiting w1) =
      (SignalState.Signaled, Option.some w1) := by
  refine ⟨?_, rfl⟩
  simp [Signal.poll_wait]

/-- Witness for C8_wake_slot_second_waiter with wakers 0 and 1. -/
theorem C8_wake_slot_second_waiter_witness :
    (0 : Nat) ≠ 1 ∧
    (Signal.poll_wait (SignalState.Waiting 0) 1 =
      (SignalState.Waiting 0, Poll.Pending) ∧
     Signal.signal (SignalState.Waiting 0) =
      (SignalState.Signaled, Option.some 0)) :=
  ⟨by decide, C8_wake_slot_second_waiter 0 1 (by decide)⟩

/-- Claim C9 (implicit): every AccessMessage constructed by a successful
publish resolution additionally has akf = true, ivi = 0, nid equal to the
nid of the matched (inner) network details, src equal to the element
address of the publish message, and the identical payload. -/
theorem C9_publish_header_fields (cfg : Configuration)
    (p : OutboundPublishMessage) (nw : Network) (nd : NetworkDetails)
    (pb : Publication) (akd : AppKeyDetails)
    (h1 : cfg.network = Option.some nw)
    (h2 : nw.find_publication p.element_address p.model_identifier =
      Option.some (nd, pb))
    (h3 : nd.find_app_key_by_index pb.app_key_index = Option.some akd) :
    ∃ m, publish cfg p = Option.some m ∧
      m.akf = true ∧
      m.ivi = 0 ∧
      m.nid = nd.nid ∧
      m.src = p.element_address ∧
      m.payload = p.payload := by
  have hp : publish cfg p = Option.some
      { ttl := pb.publish_ttl
        network_key := nd.key_handle
        ivi := 0
        nid := nd.nid
        akf := true
        aid := akd.aid
        src := p.element_address
        dst := pb.publish_address
        payload := p.payload } := by
    simp [publish, h1, h2, h3]
  exact ⟨_, hp, rfl, rfl, rfl, rfl, rfl⟩

/-- Witness for C9_publish_header_fields at the sample configuration. -/
theorem C9_publish_header_fields_witness :
    sample_configuration.network = Option.some sample_network ∧
    sample_network.find_publication sample_publish_message.element_address
      sample_publish_message.model_identifier =
      Option.some (sample_network_details, sample_publication) ∧
    sample_network_details.find_app_key_by_index
      sample_publication.app_key_index = Option.some sample_app_key ∧
    ∃ m, publish sample_configuration sample_publish_message =
        Option.some m ∧
      m.akf = true ∧
      m.ivi = 0 ∧
      m.nid = sample_network_details.nid ∧
      m.src = sample_publish_message.element_address ∧
      m.payload = sample_publish_message.payload :=
  ⟨rfl, rfl, rfl,
    C9_publish_header_fields sample_configuration sample_publish_message
      sample_network sample_network_details sample_publication sample_app_key
      rfl rfl rfl⟩

/-- Claim C10 (implicit): before the channel state has been set up, the
outbound and publish-outbound mailboxes silently discard traffic. A send
on an uninstalled channel completes without error and without enqueueing,
and a next on an uninstalled channel returns Option.none immediately
rather than suspending. -/
theorem C10_uninstalled_channels_discard (α : Type) (m : α) :
    OutboundChannel.send (Option.none : ChannelModel α) m =
      SendOutcome.completed Option.none ∧
    OutboundChannel.next (Option.none : ChannelModel α) =
      NextOutcome.returned Option.none Option.none :=
  ⟨rfl, rfl⟩
